import Mathlib

/-!
Verification of the cart-payment lifecycle engine and related components of the
payment-service repository, as described in its specification.  Pure parts of the
code are embedded as Lean functions; the stateful lifecycle engine is embedded as
explicit state passing over an `EngineState` record.  Amounts are integers (cents).
Components whose implementation is not part of the provided sources (the
`CartPaymentProcessor` engine itself) are modelled from the specification and
marked as such in their doc comments.
-/

/-- Decidable equality of fallible results. -/
instance {ε α : Type} [DecidableEq ε] [DecidableEq α] (a b : Except ε α) :
    Decidable (a = b) :=
  match a, b with
  | .error x, .error y => decidable_of_iff (x = y) (by simp)
  | .error _, .ok _ => .isFalse (by simp)
  | .ok _, .error _ => .isFalse (by simp)
  | .ok x, .ok y => decidable_of_iff (x = y) (by simp)

namespace PaymentService

/-- Error taxonomy of the engine, spec section 7. -/
inductive ErrorKind
  | InvalidRequest
  | NotFound
  | InvalidState
  | GatewayDeclined
  | GatewayTransient
  | ConflictingIdempotencyKey
deriving DecidableEq, Repr

/-- Retryability of each error class, spec section 7: only transient gateway
failures are retryable. -/
def ErrorKind.retryable : ErrorKind → Bool
  | .GatewayTransient => true
  | _ => false

/-- Status of a `PaymentIntent`, spec sections 3 and 4.2. -/
inductive IntentStatus
  | init
  | requires_capture
  | captured
  | cancelled
  | refunded
deriving DecidableEq, Repr

/-- Modelled from the spec: the `PaymentIntent.status` transition table of
section 4.2 — `INIT → REQUIRES_CAPTURE → CAPTURED`, `INIT/REQUIRES_CAPTURE →
CANCELLED`, `CAPTURED → REFUNDED`; everything else is disallowed.  (The
`IntentStatus` transition logic of the engine is not part of the provided
sources.) -/
def IntentStatus.transitionAllowed : IntentStatus → IntentStatus → Bool
  | .init, .requires_capture => true
  | .requires_capture, .captured => true
  | .init, .cancelled => true
  | .requires_capture, .cancelled => true
  | .captured, .refunded => true
  | _, _ => false

/-- The transitions listed in spec section 4.2, as explicit pairs. -/
def listedIntentTransitions : List (IntentStatus × IntentStatus) :=
  [(.init, .requires_capture), (.requires_capture, .captured),
   (.init, .cancelled), (.requires_capture, .cancelled),
   (.captured, .refunded)]

/-- Applying a status transition: any transition not in the table is rejected
(`none`) rather than written. -/
def applyIntentTransition (s t : IntentStatus) : Option IntentStatus :=
  if s.transitionAllowed t then some t else none

/-- Forward progress measure on intent statuses. -/
def IntentStatus.rank : IntentStatus → Nat
  | .init => 0
  | .requires_capture => 1
  | .captured => 2
  | .cancelled => 3
  | .refunded => 3

/-- Reachability in zero or more allowed transitions. -/
def IntentStatusReachable (s t : IntentStatus) : Prop :=
  Relation.ReflTransGen (fun a b => IntentStatus.transitionAllowed a b = true) s t

/-- Correlation key of a cart payment (`CorrelationIds` in
`app/payin/core/cart_payment/model.py`): identifies the external business
entity the payment is for. -/
structure CorrelationIds where
  reference_id : String
  reference_type : String
deriving DecidableEq, Repr

/-- `CartPayment` aggregate root, spec section 3.  Ids and timestamps are
natural numbers (a logical clock); amounts are integers in cents. -/
structure CartPayment where
  id : Nat
  payer_id : Nat
  amount : Int
  payment_method_id : Nat
  correlation_ids : CorrelationIds
  delay_capture : Bool
  client_description : Option String
  created_at : Nat
  deleted_at : Option Nat
deriving DecidableEq, Repr

/-- `PaymentIntent`, spec section 3: one attempt to move money for a
`CartPayment` against the gateway, guarded by its unique idempotency key. -/
structure PaymentIntent where
  id : Nat
  cart_payment_id : Nat
  idempotency_key : String
  amount : Int
  amount_initiated : Int
  status : IntentStatus
  capture_after : Option Nat
  captured_at : Option Nat
  cancelled_at : Option Nat
deriving DecidableEq, Repr

/-- `PaymentIntentAdjustmentHistory`, spec section 3: immutable audit record of
an amount change. -/
structure PaymentIntentAdjustmentHistory where
  id : Nat
  payment_intent_id : Nat
  amount : Int
  amount_original : Int
  amount_delta : Int
  idempotency_key : String
deriving DecidableEq, Repr

/-- Status of a charge, mirroring capture/refund state (spec section 3). -/
inductive ChargeStatus
  | requires_capture
  | succeeded
  | failed
deriving DecidableEq, Repr

/-- `PaymentCharge`, spec section 3: captured funds at the charge level. -/
structure PaymentCharge where
  id : Nat
  payment_intent_id : Nat
  status : ChargeStatus
  amount : Int
  amount_refunded : Int
deriving DecidableEq, Repr

/-- Status of a refund (spec section 3: processing → succeeded/failed). -/
inductive RefundStatus
  | processing
  | succeeded
  | failed
deriving DecidableEq, Repr

/-- `Refund`, spec section 3: a refund operation against a charge. -/
structure Refund where
  id : Nat
  payment_intent_id : Nat
  amount : Int
  status : RefundStatus
  idempotency_key : String
deriving DecidableEq, Repr

/-- Count of side-effecting calls issued to the Gateway Client Adapter
(spec section 6). -/
structure GatewayLog where
  authorize : Nat
  capture : Nat
  adjust : Nat
  cancel : Nat
  refund : Nat
deriving DecidableEq, Repr

/-- State of the Ledger Store plus the gateway call log.  Per spec sections 3
and 9, persisted entities are immutable snapshots and every state change writes
a new versioned row: writers cons the new snapshot onto the head of the list and
readers take the first (latest) matching row. -/
structure EngineState where
  cart_payments : List CartPayment
  intents : List PaymentIntent
  charges : List PaymentCharge
  history : List PaymentIntentAdjustmentHistory
  refunds : List Refund
  gateway : GatewayLog
  next_id : Nat
  now : Nat
deriving DecidableEq, Repr

/-- Store lookup `get_by_idempotency_key`, spec section 6 (latest row first). -/
def EngineState.intentByKey (st : EngineState) (key : String) : Option PaymentIntent :=
  st.intents.find? fun i => decide (i.idempotency_key = key)

/-- Store lookup `get_by_id` for cart payments, spec section 6. -/
def EngineState.cartPaymentById (st : EngineState) (cpid : Nat) : Option CartPayment :=
  st.cart_payments.find? fun c => decide (c.id = cpid)

/-- Store lookup `get_by_correlation`, spec section 6: the unique non-deleted
cart payment for a correlation pair, if any. -/
def EngineState.cartPaymentByCorrelation (st : EngineState) (ids : CorrelationIds) :
    Option CartPayment :=
  st.cart_payments.find? fun c => decide (c.correlation_ids = ids) && c.deleted_at.isNone

/-- Latest intent belonging to a cart payment. -/
def EngineState.intentForCartPayment (st : EngineState) (cpid : Nat) : Option PaymentIntent :=
  st.intents.find? fun i => decide (i.cart_payment_id = cpid)

/-- Latest charge belonging to an intent. -/
def EngineState.chargeForIntent (st : EngineState) (intent_id : Nat) : Option PaymentCharge :=
  st.charges.find? fun c => decide (c.payment_intent_id = intent_id)

/-- A normalized create request, spec section 4.1. -/
structure CreateCartPaymentRequest where
  amount : Int
  payer_id : Nat
  payment_method_id : Nat
  correlation_ids : CorrelationIds
  delay_capture : Bool
  client_description : Option String
deriving DecidableEq, Repr

/-- The cart payment snapshot written by a fresh `create_cart_payment`. -/
def createdPayment (st : EngineState) (req : CreateCartPaymentRequest) : CartPayment :=
  { id := st.next_id
    payer_id := req.payer_id
    amount := req.amount
    payment_method_id := req.payment_method_id
    correlation_ids := req.correlation_ids
    delay_capture := req.delay_capture
    client_description := req.client_description
    created_at := st.now
    deleted_at := none }

/-- The intent snapshot written by a fresh `create_cart_payment`: status
`requires_capture` when capture is delayed, `captured` when immediate. -/
def createdIntent (st : EngineState) (req : CreateCartPaymentRequest)
    (idempotency_key : String) : PaymentIntent :=
  { id := st.next_id + 1
    cart_payment_id := st.next_id
    idempotency_key := idempotency_key
    amount := req.amount
    amount_initiated := req.amount
    status := if req.delay_capture then .requires_capture else .captured
    capture_after := none
    captured_at := if req.delay_capture then none else some st.now
    cancelled_at := none }

/-- The charge snapshot written by a fresh `create_cart_payment`. -/
def createdCharge (st : EngineState) (req : CreateCartPaymentRequest) : PaymentCharge :=
  { id := st.next_id + 2
    payment_intent_id := st.next_id + 1
    status := if req.delay_capture then .requires_capture else .succeeded
    amount := req.amount
    amount_refunded := 0 }

/-- The store after a fresh `create_cart_payment`: the three new snapshots are
written, one gateway authorize call is issued, plus one capture call unless
capture is delayed. -/
def createdState (st : EngineState) (req : CreateCartPaymentRequest)
    (idempotency_key : String) : EngineState :=
  { st with
    cart_payments := createdPayment st req :: st.cart_payments
    intents := createdIntent st req idempotency_key :: st.intents
    charges := createdCharge st req :: st.charges
    gateway :=
      { st.gateway with
        authorize := st.gateway.authorize + 1
        capture := st.gateway.capture + (if req.delay_capture then 0 else 1) }
    next_id := st.next_id + 3 }

/-- Modelled from the spec: `CartPaymentProcessor.create_cart_payment`
(section 4.1; the processor implementation is not among the provided sources).
If an intent already exists for the idempotency key, the associated cart payment
is returned unchanged with no gateway call.  Otherwise the snapshots of
`createdState` are written and exactly one gateway authorize call is issued. -/
def create_cart_payment (st : EngineState) (req : CreateCartPaymentRequest)
    (idempotency_key : String) : EngineState × Except ErrorKind CartPayment :=
  if req.amount ≤ 0 then (st, .error .InvalidRequest)
  else if idempotency_key = "" then (st, .error .InvalidRequest)
  else
    match st.intentByKey idempotency_key with
    | some intent =>
      match st.cartPaymentById intent.cart_payment_id with
      | some cp => (st, .ok cp)
      | none => (st, .error .NotFound)
    | none => (createdState st req idempotency_key, .ok (createdPayment st req))

/-- The audit record written by an accepted adjustment: amount_original is the
payment's current amount, amount the new amount, and amount_delta their
difference. -/
def adjustmentEntry (st : EngineState) (idempotency_key : String)
    (cp : CartPayment) (intent : PaymentIntent) (amount : Int) :
    PaymentIntentAdjustmentHistory :=
  { id := st.next_id
    payment_intent_id := intent.id
    amount := amount
    amount_original := cp.amount
    amount_delta := amount - cp.amount
    idempotency_key := idempotency_key }

/-- The gateway calls issued by an accepted adjustment: an uncaptured intent
gets its authorization adjusted; a captured intent gets a supplemental capture
(positive delta) or a partial refund (negative delta). -/
def adjustedGateway (st : EngineState) (intent : PaymentIntent) (delta : Int) :
    GatewayLog :=
  if intent.status = .captured then
    if delta > 0 then { st.gateway with capture := st.gateway.capture + 1 }
    else if delta < 0 then { st.gateway with refund := st.gateway.refund + 1 }
    else st.gateway
  else { st.gateway with adjust := st.gateway.adjust + 1 }

/-- The store after an accepted adjustment: new snapshots of the cart payment
and the intent, one appended history entry, and the gateway calls of
`adjustedGateway`. -/
def adjustedState (st : EngineState) (idempotency_key : String) (cp : CartPayment)
    (intent : PaymentIntent) (amount : Int) (client_description : Option String) :
    EngineState :=
  { st with
    cart_payments :=
      { cp with amount := amount, client_description := client_description } ::
        st.cart_payments
    intents := { intent with amount := amount } :: st.intents
    history := adjustmentEntry st idempotency_key cp intent amount :: st.history
    gateway := adjustedGateway st intent (amount - cp.amount)
    next_id := st.next_id + 1 }

/-- Modelled from the spec: `CartPaymentProcessor.update_payment` (section 4.1;
the processor implementation is not among the provided sources).  A non-positive
new amount fails with `InvalidRequest`; an unknown id fails with `NotFound`; a
canceled payment fails with `InvalidState`.  Failures leave the state untouched
and make no gateway call.  On success the snapshots of `adjustedState` are
written. -/
def update_payment (st : EngineState) (idempotency_key : String) (cart_payment_id : Nat)
    (amount : Int) (client_description : Option String) :
    EngineState × Except ErrorKind CartPayment :=
  if amount ≤ 0 then (st, .error .InvalidRequest)
  else
    match st.cartPaymentById cart_payment_id with
    | none => (st, .error .NotFound)
    | some cp =>
      if cp.deleted_at.isSome then (st, .error .InvalidState)
      else
        match st.intentForCartPayment cart_payment_id with
        | none => (st, .error .NotFound)
        | some intent =>
          (adjustedState st idempotency_key cp intent amount client_description,
            .ok { cp with amount := amount, client_description := client_description })

/-- The refund record written when canceling a payment with captured funds: the
full captured, non-refunded amount of the charge. -/
def cancelRefund (st : EngineState) (intent : PaymentIntent) (charge : PaymentCharge) :
    Refund :=
  { id := st.next_id
    payment_intent_id := intent.id
    amount := charge.amount - charge.amount_refunded
    status := .processing
    idempotency_key := "" }

/-- The store after canceling a payment whose funds were captured: new
snapshots soft-delete the payment, move the intent to `refunded`, mark the
charge fully refunded, record the refund of the captured non-refunded amount,
and issue one gateway refund call. -/
def canceledCapturedState (st : EngineState) (cp : CartPayment)
    (intent : PaymentIntent) (charge : PaymentCharge) : EngineState :=
  { st with
    cart_payments := { cp with deleted_at := some st.now } :: st.cart_payments
    intents :=
      { intent with status := .refunded, cancelled_at := some st.now } :: st.intents
    charges := { charge with amount_refunded := charge.amount } :: st.charges
    refunds := cancelRefund st intent charge :: st.refunds
    gateway := { st.gateway with refund := st.gateway.refund + 1 }
    next_id := st.next_id + 1 }

/-- The store after canceling a payment whose funds were never captured: new
snapshots soft-delete the payment and move the intent to `cancelled`, and one
gateway cancel call releases the authorization. -/
def canceledUncapturedState (st : EngineState) (cp : CartPayment)
    (intent : PaymentIntent) : EngineState :=
  { st with
    cart_payments := { cp with deleted_at := some st.now } :: st.cart_payments
    intents :=
      { intent with status := .cancelled, cancelled_at := some st.now } :: st.intents
    gateway := { st.gateway with cancel := st.gateway.cancel + 1 } }

/-- Modelled from the spec: `CartPaymentProcessor.cancel_payment` (section 4.1;
the processor implementation is not among the provided sources).  Canceling an
already-canceled payment is a no-op returning the current state, with no
gateway call.  Otherwise the snapshots of `canceledCapturedState` (captured
funds: full refund) or `canceledUncapturedState` (uncaptured: release the
authorization) are written. -/
def cancel_payment (st : EngineState) (cart_payment_id : Nat) :
    EngineState × Except ErrorKind CartPayment :=
  match st.cartPaymentById cart_payment_id with
  | none => (st, .error .NotFound)
  | some cp =>
    if cp.deleted_at.isSome then (st, .ok cp)
    else
      match st.intentForCartPayment cart_payment_id with
      | none => (st, .error .NotFound)
      | some intent =>
        if intent.status = .captured then
          match st.chargeForIntent intent.id with
          | none => (st, .error .NotFound)
          | some charge =>
            (canceledCapturedState st cp intent charge,
              .ok { cp with deleted_at := some st.now })
        else
          (canceledUncapturedState st cp intent,
            .ok { cp with deleted_at := some st.now })

/-- Modelled from the spec: `CartPaymentProcessor.upsert_cart_payment`
(section 4.1; the processor implementation is not among the provided sources).
Looks up the cart payment by correlation key; if none exists it delegates to
`create_cart_payment`, and if one exists it delegates to `update_payment` with
the new request's amount and fields.  The boolean component of the result is the
flag the API boundary binds as `updated`
(`app/payin/api/cart_payment/v1/api.py`, line 262): `true` exactly when an
existing payment was updated, `false` when a new one was created. -/
def upsert_cart_payment (st : EngineState) (req : CreateCartPaymentRequest)
    (idempotency_key : String) : EngineState × Except ErrorKind (CartPayment × Bool) :=
  match st.cartPaymentByCorrelation req.correlation_ids with
  | none =>
    let res := create_cart_payment st req idempotency_key
    (res.1, res.2.map fun cp => (cp, false))
  | some cp =>
    let res := update_payment st idempotency_key cp.id req.amount req.client_description
    (res.1, res.2.map fun cp' => (cp', true))

/-- The upsert API boundary (`app/payin/api/cart_payment/v1/api.py`, lines
262-267): `if not updated:` respond with HTTP 201 Created, otherwise fall
through to the route's HTTP 200 OK response. -/
def upsert_api_status (updated : Bool) : Nat :=
  if !updated then 201 else 200

/-- Modelled from the spec: issuing one refund against a charge (section 3 —
the refund amount must not exceed the refundable remainder of the parent
charge; the refund/charge write path is not among the provided sources). -/
def issue_refund (charge : PaymentCharge) (amount : Int) :
    Except ErrorKind (PaymentCharge × Refund) :=
  if amount ≤ 0 then .error .InvalidRequest
  else if charge.amount - charge.amount_refunded < amount then .error .InvalidRequest
  else
    .ok ({ charge with amount_refunded := charge.amount_refunded + amount },
      { id := 0
        payment_intent_id := charge.payment_intent_id
        amount := amount
        status := .processing
        idempotency_key := "" })

/-- One refund attempt against a charge: an accepted refund updates the charge,
a rejected one leaves it unchanged. -/
def stepCharge (charge : PaymentCharge) (amount : Int) : PaymentCharge :=
  match issue_refund charge amount with
  | .ok res => res.1
  | .error _ => charge

/-- Folding a sequence of refund attempts over a charge. -/
def apply_refunds (charge : PaymentCharge) (amounts : List Int) : PaymentCharge :=
  amounts.foldl stepCharge charge

/-- `generate_payment_intent_adjustment_history` (`app/payin/tests/utils.py`,
lines 215-228): the fixture's record has amount 500, amount_original 400 and
amount_delta 100; the two parameters mirror the fixture's parameters. -/
def generate_payment_intent_adjustment_history (payment_intent_id : Nat)
    (idempotency_key : String) : PaymentIntentAdjustmentHistory :=
  { id := 0
    payment_intent_id := payment_intent_id
    amount := 500
    amount_original := 400
    amount_delta := 100
    idempotency_key := idempotency_key }

/-- `generate_payment_charge` (`app/payin/tests/utils.py`, lines 293-314); the
fixture's defaults are status `requires_capture`, amount 700,
amount_refunded 0. -/
def generate_payment_charge (payment_intent_id : Nat) (status : ChargeStatus)
    (amount : Int) (amount_refunded : Int) : PaymentCharge :=
  { id := 0
    payment_intent_id := payment_intent_id
    status := status
    amount := amount
    amount_refunded := amount_refunded }

/-- Progress of one of two concurrent duplicate requests racing on the same
idempotency key (spec sections 4.2 and 5): not yet at the store, past its
`insert_if_absent` (knowing whether it won), or finished with a result — the id
of the cart payment it returns. -/
inductive ReqPhase
  | notStarted
  | inserted (won : Bool)
  | finished (won : Bool) (result : Nat)
deriving DecidableEq, Repr

/-- Shared state of the race: the store row for the contended idempotency key
(the winner's payment id), both requests' phases, and the number of gateway
calls issued for the key. -/
structure RaceState where
  store : Option Nat
  phaseA : ReqPhase
  phaseB : ReqPhase
  gateway_calls : Nat
deriving DecidableEq, Repr

/-- Store primitive `insert_if_absent` (spec section 6): atomically inserts the
row unless the uniqueness constraint rejects it, reporting whether the insert
won. -/
def insertIfAbsent (store : Option Nat) (payload : Nat) : Option Nat × Bool :=
  match store with
  | none => (some payload, true)
  | some v => (some v, false)

/-- Modelled from the spec: one scheduling step of a single request (sections 5
and 4.2; the concurrent engine code is not among the provided sources).  A
request first runs `insert_if_absent` with its candidate row; the winner then
issues the single gateway call and returns its own payment; the loser makes no
gateway call and re-reads the winner's row.  A finished request is a no-op. -/
def stepRequest (store : Option Nat) (payload : Nat) (phase : ReqPhase) (calls : Nat) :
    Option Nat × ReqPhase × Nat :=
  match phase with
  | .notStarted =>
    let res := insertIfAbsent store payload
    (res.1, .inserted res.2, calls)
  | .inserted won =>
    if won then (store, .finished true payload, calls + 1)
    else (store, .finished false (store.getD 0), calls)
  | .finished w r => (store, .finished w r, calls)

/-- One step of the interleaved execution: `who = true` schedules request A
(payload 1), `who = false` schedules request B (payload 2). -/
def raceStep (s : RaceState) (who : Bool) : RaceState :=
  if who then
    let res := stepRequest s.store 1 s.phaseA s.gateway_calls
    { store := res.1, phaseA := res.2.1, phaseB := s.phaseB, gateway_calls := res.2.2 }
  else
    let res := stepRequest s.store 2 s.phaseB s.gateway_calls
    { store := res.1, phaseA := s.phaseA, phaseB := res.2.1, gateway_calls := res.2.2 }

/-- Initial race state: no store row, neither request started, no gateway
calls. -/
def raceInit : RaceState :=
  { store := none, phaseA := .notStarted, phaseB := .notStarted, gateway_calls := 0 }

/-- Running the race under an arbitrary interleaving schedule. -/
def raceRun (sched : List Bool) : RaceState :=
  sched.foldl raceStep raceInit

/-- The (finite) set of states reachable by any interleaving of the two
requests. -/
def raceStates : List RaceState :=
  [ { store := none, phaseA := .notStarted, phaseB := .notStarted, gateway_calls := 0 },
    { store := some 1, phaseA := .inserted true, phaseB := .notStarted, gateway_calls := 0 },
    { store := some 1, phaseA := .finished true 1, phaseB := .notStarted, gateway_calls := 1 },
    { store := some 1, phaseA := .inserted true, phaseB := .inserted false, gateway_calls := 0 },
    { store := some 1, phaseA := .finished true 1, phaseB := .inserted false, gateway_calls := 1 },
    { store := some 1, phaseA := .inserted true, phaseB := .finished false 1, gateway_calls := 0 },
    { store := some 1, phaseA := .finished true 1, phaseB := .finished false 1, gateway_calls := 1 },
    { store := some 2, phaseA := .notStarted, phaseB := .inserted true, gateway_calls := 0 },
    { store := some 2, phaseA := .notStarted, phaseB := .finished true 2, gateway_calls := 1 },
    { store := some 2, phaseA := .inserted false, phaseB := .inserted true, gateway_calls := 0 },
    { store := some 2, phaseA := .inserted false, phaseB := .finished true 2, gateway_calls := 1 },
    { store := some 2, phaseA := .finished false 2, phaseB := .inserted true, gateway_calls := 0 },
    { store := some 2, phaseA := .finished false 2, phaseB := .finished true 2, gateway_calls := 1 } ]

/-- Reachability invariant of the race. -/
def RaceReachable (s : RaceState) : Prop :=
  s ∈ raceStates

/-- A sequence of adjustment requests (idempotency key, new amount) applied in
order to one cart payment; a rejected request leaves the state untouched. -/
def run_adjustments (st : EngineState) (cpid : Nat) (reqs : List (String × Int)) :
    EngineState :=
  reqs.foldl (fun s r => (update_payment s r.1 cpid r.2 none).1) st

/-- Every recorded adjustment satisfies amount_delta = amount − amount_original
(spec section 8). -/
@[reducible] def DeltaLaw (l : List PaymentIntentAdjustmentHistory) : Prop :=
  ∀ e ∈ l, e.amount_delta = e.amount - e.amount_original

/-- Consecutive adjustments are chained (newest first): each entry's
amount_original equals the previous entry's amount (spec section 8). -/
@[reducible] def Chained (l : List PaymentIntentAdjustmentHistory) : Prop :=
  List.Chain' (fun newer older => newer.amount_original = older.amount) l

/-- The newest history entry's amount agrees with the cart payment's current
amount. -/
def headLinkedB (st : EngineState) (cpid : Nat) : Bool :=
  match st.cartPaymentById cpid, st.history.head? with
  | some cp, some e => decide (e.amount = cp.amount)
  | _, _ => true

/-- The adjustment-history invariant of a store state, relative to the adjusted
cart payment. -/
@[reducible] def HistoryInv (st : EngineState) (cpid : Nat) : Prop :=
  DeltaLaw st.history ∧ Chained st.history ∧ headLinkedB st cpid = true

/-- Correlation key shared by the worked examples. -/
def exampleCorrelationIds : CorrelationIds :=
  { reference_id := "0", reference_type := "2" }

/-- A delayed-capture create request for 500 cents. -/
def exampleRequest : CreateCartPaymentRequest :=
  { amount := 500
    payer_id := 1
    payment_method_id := 2
    correlation_ids := exampleCorrelationIds
    delay_capture := true
    client_description := none }

/-- The same request with immediate capture. -/
def exampleCapturedRequest : CreateCartPaymentRequest :=
  { exampleRequest with delay_capture := false }

/-- The same request with amount 700, for the upsert-update path. -/
def exampleUpdatedRequest : CreateCartPaymentRequest :=
  { exampleRequest with amount := 700 }

/-- An empty store with no gateway calls issued. -/
def emptyEngineState : EngineState :=
  { cart_payments := []
    intents := []
    charges := []
    history := []
    refunds := []
    gateway := { authorize := 0, capture := 0, adjust := 0, cancel := 0, refund := 0 }
    next_id := 1
    now := 0 }

/-- The cart payment created by `exampleRequest` on the empty store. -/
def examplePayment : CartPayment :=
  { id := 1
    payer_id := 1
    amount := 500
    payment_method_id := 2
    correlation_ids := exampleCorrelationIds
    delay_capture := true
    client_description := none
    created_at := 0
    deleted_at := none }

/-- The intent created alongside `examplePayment` (delayed capture). -/
def exampleIntent : PaymentIntent :=
  { id := 2
    cart_payment_id := 1
    idempotency_key := "key-1"
    amount := 500
    amount_initiated := 500
    status := .requires_capture
    capture_after := none
    captured_at := none
    cancelled_at := none }

/-- The charge created alongside `examplePayment` (not yet captured). -/
def exampleCharge : PaymentCharge :=
  { id := 3
    payment_intent_id := 2
    status := .requires_capture
    amount := 500
    amount_refunded := 0 }

/-- The store after `create_cart_payment emptyEngineState exampleRequest
"key-1"`. -/
def exampleCreatedState : EngineState :=
  { cart_payments := [examplePayment]
    intents := [exampleIntent]
    charges := [exampleCharge]
    history := []
    refunds := []
    gateway := { authorize := 1, capture := 0, adjust := 0, cancel := 0, refund := 0 }
    next_id := 4
    now := 0 }

/-- The cart payment created by `exampleCapturedRequest` on the empty store. -/
def exampleCapturedPayment : CartPayment :=
  { examplePayment with delay_capture := false }

/-- The captured intent created by `exampleCapturedRequest`. -/
def exampleCapturedIntent : PaymentIntent :=
  { exampleIntent with idempotency_key := "key-2", status := .captured, captured_at := some 0 }

/-- The succeeded charge created by `exampleCapturedRequest`. -/
def exampleCapturedCharge : PaymentCharge :=
  { exampleCharge with status := .succeeded }

/-- The store after `create_cart_payment emptyEngineState exampleCapturedRequest
"key-2"`. -/
def exampleCapturedState : EngineState :=
  { cart_payments := [exampleCapturedPayment]
    intents := [exampleCapturedIntent]
    charges := [exampleCapturedCharge]
    history := []
    refunds := []
    gateway := { authorize := 1, capture := 1, adjust := 0, cancel := 0, refund := 0 }
    next_id := 4
    now := 0 }

/-- `exampleCapturedPayment` after cancellation (soft-deleted). -/
def exampleCanceledPayment : CartPayment :=
  { exampleCapturedPayment with deleted_at := some 0 }

/-- The store after `cancel_payment exampleCapturedState 1`: the payment is
soft-deleted, the intent is refunded, the charge is fully refunded, and one
gateway refund call was issued. -/
def exampleCanceledState : EngineState :=
  { cart_payments := [exampleCanceledPayment, exampleCapturedPayment]
    intents :=
      [{ exampleCapturedIntent with status := .refunded, cancelled_at := some 0 },
       exampleCapturedIntent]
    charges := [{ exampleCapturedCharge with amount_refunded := 500 }, exampleCapturedCharge]
    history := []
    refunds :=
      [{ id := 4, payment_intent_id := 2, amount := 500, status := .processing,
         idempotency_key := "" }]
    gateway := { authorize := 1, capture := 1, adjust := 0, cancel := 0, refund := 1 }
    next_id := 5
    now := 0 }

/-- `examplePayment` after an adjustment to 700 cents. -/
def exampleAdjustedPayment : CartPayment :=
  { examplePayment with amount := 700 }

/-- The store after `update_payment exampleCreatedState "key-3" 1 700 none`:
new snapshots of the payment and the intent, one history entry with
amount_original 500 and amount_delta 200, and one gateway
adjust-authorization call. -/
def exampleAdjustedState : EngineState :=
  { cart_payments := [exampleAdjustedPayment, examplePayment]
    intents := [{ exampleIntent with amount := 700 }, exampleIntent]
    charges := [exampleCharge]
    history :=
      [{ id := 4, payment_intent_id := 2, amount := 700, amount_original := 500,
         amount_delta := 200, idempotency_key := "key-3" }]
    refunds := []
    gateway := { authorize := 1, capture := 0, adjust := 1, cancel := 0, refund := 0 }
    next_id := 5
    now := 0 }

end PaymentService

/-- Python's `dataclasses.FrozenInstanceError`, raised on attribute assignment
to a frozen dataclass instance. -/
inductive FrozenInstanceError
  | mk
deriving DecidableEq, Repr

/-- CPython semantics of field assignment on a dataclass instance: when the
class was declared `frozen=True`, `__setattr__` raises `FrozenInstanceError`;
otherwise the updated record value results. -/
def dataclassSetattr {α : Type} (frozen : Bool) (updated : α) :
    Except FrozenInstanceError α :=
  if frozen then .error .mk else .ok updated

namespace Ledger

/-- `MxTransaction` (`app/ledger/core/mx_transaction/model.py`, lines 17-33).
UUIDs and datetimes are numbers; the enum-typed fields are strings. -/
structure MxTransaction where
  id : Nat
  payment_account_id : String
  amount : Int
  currency : String
  ledger_id : String
  idempotency_key : String
  routing_key : Nat
  target_type : String
  legacy_transaction_id : Option String
  target_id : Option String
  created_at : Option Nat
  updated_at : Option Nat
  context : Option String
  metadata : Option String
deriving DecidableEq, Repr

/-- The frozen flag of `MxTransaction`: declared `@dataclass(frozen=True)`. -/
def MxTransaction.frozenFlag : Bool := true

/-- Field assignment on a constructed `MxTransaction`, for an arbitrary field
update function. -/
def MxTransaction.setattr (t : MxTransaction) (upd : MxTransaction → MxTransaction) :
    Except FrozenInstanceError MxTransaction :=
  dataclassSetattr MxTransaction.frozenFlag (upd t)

/-- `MxLedger` (`app/ledger/core/mx_transaction/model.py`, lines 37-54). -/
structure MxLedger where
  id : Nat
  type : String
  currency : String
  state : String
  balance : Int
  payment_account_id : String
  created_at : Option Nat
  updated_at : Option Nat
  submitted_at : Option Nat
  amount_paid : Option Int
  legacy_transfer_id : Option String
  finalized_at : Option Nat
  created_by_employee_id : Option String
  submitted_by_employee_id : Option String
  rolled_to_ledger_id : Option String
deriving DecidableEq, Repr

/-- The frozen flag of `MxLedger`: declared `@dataclass(frozen=True)`. -/
def MxLedger.frozenFlag : Bool := true

/-- Field assignment on a constructed `MxLedger`. -/
def MxLedger.setattr (t : MxLedger) (upd : MxLedger → MxLedger) :
    Except FrozenInstanceError MxLedger :=
  dataclassSetattr MxLedger.frozenFlag (upd t)

/-- `MxScheduledLedger` (`app/ledger/core/mx_transaction/model.py`, lines
57-68). -/
structure MxScheduledLedger where
  id : Nat
  payment_account_id : String
  ledger_id : Nat
  interval_type : String
  start_time : Nat
  end_time : Nat
  created_at : Option Nat
  updated_at : Option Nat
deriving DecidableEq, Repr

/-- The frozen flag of `MxScheduledLedger`: declared `@dataclass(frozen=True)`. -/
def MxScheduledLedger.frozenFlag : Bool := true

/-- Field assignment on a constructed `MxScheduledLedger`. -/
def MxScheduledLedger.setattr (t : MxScheduledLedger)
    (upd : MxScheduledLedger → MxScheduledLedger) :
    Except FrozenInstanceError MxScheduledLedger :=
  dataclassSetattr MxScheduledLedger.frozenFlag (upd t)

/-- `MarqetaCard` (`app/purchasecard/models/maindb/marqeta_card.py`, lines
26-30). -/
structure MarqetaCard where
  token : String
  delight_number : Int
  terminated_at : Option Nat
  last4 : String
deriving DecidableEq, Repr

/-- Modelled from the spec: the frozen flag of `MarqetaCard` — its base class
`DBEntity` (`app/commons/database/model.py`) is not among the provided sources;
spec section 3 states that all persisted entities are immutable value
snapshots. -/
def MarqetaCard.frozenFlag : Bool := true

/-- Field assignment on a constructed `MarqetaCard`. -/
def MarqetaCard.setattr (t : MarqetaCard) (upd : MarqetaCard → MarqetaCard) :
    Except FrozenInstanceError MarqetaCard :=
  dataclassSetattr MarqetaCard.frozenFlag (upd t)

end Ledger

namespace PaymentService

/-- Modelled from the spec: the frozen flag of the payment entities
(`app/payin/core/cart_payment/model.py` is not among the provided sources; spec
section 3 states that all persisted entities are immutable value snapshots). -/
def CartPayment.frozenFlag : Bool := true

/-- Field assignment on a constructed `CartPayment`. -/
def CartPayment.setattr (t : CartPayment) (upd : CartPayment → CartPayment) :
    Except FrozenInstanceError CartPayment :=
  dataclassSetattr CartPayment.frozenFlag (upd t)

end PaymentService

namespace Purchasecard

/-- Error codes that the purchase-card transaction-event handler distinguishes
(`app/purchasecard/core/errors.py`); every other code is collapsed into
`other`.  Distinct enum members are distinct codes. -/
inductive TxnErrorCode
  | marqeta_transaction_not_found
  | marqeta_transaction_event_not_found
  | input_param_invalid
  | other (code : String)
deriving DecidableEq, Repr

/-- The payload of a `PaymentError` raised by the transaction-event processor
(`app/commons/core/errors.py`). -/
structure PaymentError where
  error_code : TxnErrorCode
  error_message : String
  retryable : Bool
deriving DecidableEq, Repr

/-- The `PaymentException` re-raised at the API boundary
(`app/commons/api/models.py`). -/
structure PaymentException where
  http_status_code : Nat
  error_code : TxnErrorCode
  error_message : String
  retryable : Bool
deriving DecidableEq, Repr

/-- The `except PaymentError` handler of `get_latest_marqeta_transaction_event`
(`app/purchasecard/api/transaction_event/v0/api.py`, lines 82-98): status starts
at 500, becomes 404 for the two not-found codes, 400 for the invalid-input code,
and the error's code, message and retryable flag are passed through unchanged. -/
def get_latest_marqeta_transaction_event_on_error (e : PaymentError) : PaymentException :=
  let status :=
    if e.error_code = TxnErrorCode.marqeta_transaction_not_found ∨
        e.error_code = TxnErrorCode.marqeta_transaction_event_not_found then
      404
    else if e.error_code = TxnErrorCode.input_param_invalid then
      400
    else
      500
  { http_status_code := status
    error_code := e.error_code
    error_message := e.error_message
    retryable := e.retryable }

end Purchasecard

namespace PaymentService

lemma rank_le_of_reachable {s t : IntentStatus} (h : IntentStatusReachable s t) :
    s.rank ≤ t.rank := by
  induction h with
  | refl => exact Nat.le_refl _
  | tail _ hstep ih =>
    refine Nat.le_trans ih (Nat.le_of_lt ?_)
    revert hstep
    rename_i b c _
    cases b <;> cases c <;> decide

lemma raceStep_reachable (who : Bool) (s : RaceState) (h : RaceReachable s) :
    RaceReachable (raceStep s who) := by
  unfold RaceReachable raceStates at h ⊢
  fin_cases h <;> cases who <;> decide

lemma raceRun_reachable (sched : List Bool) : RaceReachable (raceRun sched) := by
  have key : ∀ (l : List Bool) (s : RaceState), RaceReachable s →
      RaceReachable (l.foldl raceStep s) := by
    intro l
    induction l with
    | nil => intro s hs; simpa using hs
    | cons b t ih =>
      intro s hs
      exact ih (raceStep s b) (raceStep_reachable b s hs)
  have hinit : RaceReachable raceInit := by
    unfold RaceReachable raceStates raceInit; decide
  exact key sched raceInit hinit

/-- C6: the `PaymentIntent.status` state machine only moves forward: the
allowed transitions are exactly those listed in spec section 4.2, every allowed
transition strictly increases the forward rank, no sequence of allowed
transitions ever leads from `captured` back to `requires_capture`, and any
transition not in the table is rejected by `applyIntentTransition`. -/
theorem intent_status_forward_only :
    (∀ s t : IntentStatus,
      s.transitionAllowed t = true ↔ (s, t) ∈ listedIntentTransitions) ∧
    (∀ s t : IntentStatus, s.transitionAllowed t = true → s.rank < t.rank) ∧
    (∀ t : IntentStatus, IntentStatusReachable .captured t → t ≠ .requires_capture) ∧
    (∀ s t : IntentStatus, s.transitionAllowed t = false →
      applyIntentTransition s t = none) := by
  refine ⟨?_, ?_, ?_, ?_⟩
  · intro s t; cases s <;> cases t <;> decide
  · intro s t; cases s <;> cases t <;> decide
  · intro t hreach heq
    subst heq
    have hle := rank_le_of_reachable hreach
    simp [IntentStatus.rank] at hle
  · intro s t h
    simp [applyIntentTransition, h]

/-- C6 witness: the listed transition `init → requires_capture` strictly
increases the forward rank. -/
theorem intent_status_forward_only_witness :
    IntentStatus.rank .init < IntentStatus.rank .requires_capture :=
  intent_status_forward_only.2.1 .init .requires_capture (by decide)

/-- C8: under every interleaving of two concurrent duplicate requests sharing
one idempotency key, at most one gateway call is ever issued; once both
requests have finished, exactly one gateway call was issued, exactly one
request won the store's insert, and both return the winner's payment — the
store row written by the winner. -/
theorem concurrent_idempotency_single_gateway_call (sched : List Bool) :
    (raceRun sched).gateway_calls ≤ 1 ∧
    (∀ wa ra wb rb, (raceRun sched).phaseA = .finished wa ra →
      (raceRun sched).phaseB = .finished wb rb →
      (raceRun sched).gateway_calls = 1 ∧ ra = rb ∧
      (raceRun sched).store = some ra ∧ wa = !wb) := by
  have h := raceRun_reachable sched
  unfold RaceReachable raceStates at h
  simp only [List.mem_cons, List.not_mem_nil, or_false] at h
  rcases h with h | h | h | h | h | h | h | h | h | h | h | h | h <;>
    rw [h] <;> refine ⟨by decide, ?_⟩ <;> intro wa ra wb rb hA hB <;>
    first
      | (injection hA with h1 h2
         injection hB with h3 h4
         subst h1; subst h2; subst h3; subst h4; decide)
      | (exfalso; revert hA; simp; done)
      | (exfalso; revert hB; simp; done)

/-- C8 witness: the alternating schedule A,B,A,B finishes both requests with a
single gateway call, request A winning, and both requests returning the
winner's payment row. -/
theorem concurrent_idempotency_single_gateway_call_witness :
    (raceRun [true, false, true, false]).gateway_calls = 1 ∧ (1 : Nat) = 1 ∧
    (raceRun [true, false, true, false]).store = some 1 ∧ true = !false :=
  (concurrent_idempotency_single_gateway_call [true, false, true, false]).2
    true 1 false 1 (by decide) (by decide)

/-- C9: every persisted entity record type is an immutable value snapshot: an
attempt to assign to a field of a constructed entity fails with
`FrozenInstanceError`, for every entity value and every attempted field
update. -/
theorem persisted_entities_immutable :
    (∀ (t : Ledger.MxTransaction) (upd : Ledger.MxTransaction → Ledger.MxTransaction),
      t.setattr upd = .error .mk) ∧
    (∀ (t : Ledger.MxLedger) (upd : Ledger.MxLedger → Ledger.MxLedger),
      t.setattr upd = .error .mk) ∧
    (∀ (t : Ledger.MxScheduledLedger)
      (upd : Ledger.MxScheduledLedger → Ledger.MxScheduledLedger),
      t.setattr upd = .error .mk) ∧
    (∀ (t : Ledger.MarqetaCard) (upd : Ledger.MarqetaCard → Ledger.MarqetaCard),
      t.setattr upd = .error .mk) ∧
    (∀ (t : CartPayment) (upd : CartPayment → CartPayment),
      t.setattr upd = .error .mk) :=
  ⟨fun _ _ => rfl, fun _ _ => rfl, fun _ _ => rfl, fun _ _ => rfl, fun _ _ => rfl⟩

lemma create_cart_payment_fresh (st : EngineState) (req : CreateCartPaymentRequest)
    (k : String) (hfresh : st.intentByKey k = none) (hpos : 0 < req.amount)
    (hk : k ≠ "") :
    create_cart_payment st req k =
      (createdState st req k, .ok (createdPayment st req)) := by
  have hle : ¬ req.amount ≤ 0 := by omega
  unfold create_cart_payment
  rw [if_neg hle, if_neg hk, hfresh]

lemma createdState_intentByKey (st : EngineState) (req : CreateCartPaymentRequest)
    (k : String) :
    (createdState st req k).intentByKey k = some (createdIntent st req k) := by
  show List.find? _ (createdIntent st req k :: st.intents) = _
  exact List.find?_cons_of_pos _ (by simp [createdIntent])

lemma createdState_cartPaymentById (st : EngineState) (req : CreateCartPaymentRequest)
    (k : String) :
    (createdState st req k).cartPaymentById (createdIntent st req k).cart_payment_id =
      some (createdPayment st req) := by
  show List.find? _ (createdPayment st req :: st.cart_payments) = _
  exact List.find?_cons_of_pos _ (by simp [createdPayment, createdIntent])

lemma create_cart_payment_retry (st : EngineState) (req : CreateCartPaymentRequest)
    (k : String) (hpos : 0 < req.amount) (hk : k ≠ "") :
    create_cart_payment (createdState st req k) req k =
      (createdState st req k, .ok (createdPayment st req)) := by
  have hle : ¬ req.amount ≤ 0 := by omega
  unfold create_cart_payment
  rw [if_neg hle, if_neg hk]
  simp only [createdState_intentByKey, createdState_cartPaymentById]

/-- C2: `create_cart_payment` is idempotent in its idempotency key.  From any
state with no intent for the key, the first call writes the created snapshots
and issues exactly one gateway authorize call; a second call with the same key
and the same input returns the same `CartPayment` and leaves the state
unchanged — no new gateway side effect. -/
theorem create_cart_payment_idempotent (st : EngineState)
    (req : CreateCartPaymentRequest) (k : String)
    (hfresh : st.intentByKey k = none) (hpos : 0 < req.amount) (hk : k ≠ "") :
    create_cart_payment st req k =
      (createdState st req k, .ok (createdPayment st req)) ∧
    create_cart_payment (createdState st req k) req k =
      (createdState st req k, .ok (createdPayment st req)) ∧
    (createdState st req k).gateway.authorize = st.gateway.authorize + 1 :=
  ⟨create_cart_payment_fresh st req k hfresh hpos hk,
   create_cart_payment_retry st req k hpos hk, rfl⟩

/-- C2 witness: the concrete 500-cent delayed-capture request on the empty
store. -/
theorem create_cart_payment_idempotent_witness :
    create_cart_payment emptyEngineState exampleRequest "key-1" =
      (createdState emptyEngineState exampleRequest "key-1",
        .ok (createdPayment emptyEngineState exampleRequest)) ∧
    create_cart_payment (createdState emptyEngineState exampleRequest "key-1")
        exampleRequest "key-1" =
      (createdState emptyEngineState exampleRequest "key-1",
        .ok (createdPayment emptyEngineState exampleRequest)) ∧
    (createdState emptyEngineState exampleRequest "key-1").gateway.authorize =
      emptyEngineState.gateway.authorize + 1 :=
  create_cart_payment_idempotent emptyEngineState exampleRequest "key-1"
    (by decide) (by decide) (by decide)

lemma cancel_payment_noop (st : EngineState) (cpid : Nat) (cp : CartPayment)
    (h1 : st.cartPaymentById cpid = some cp) (h2 : cp.deleted_at.isSome = true) :
    cancel_payment st cpid = (st, .ok cp) := by
  unfold cancel_payment
  rw [h1]
  simp [h2]

lemma cancel_payment_captured (st : EngineState) (cpid : Nat) (cp : CartPayment)
    (intent : PaymentIntent) (charge : PaymentCharge)
    (h1 : st.cartPaymentById cpid = some cp) (h2 : cp.deleted_at = none)
    (h3 : st.intentForCartPayment cpid = some intent)
    (h4 : intent.status = .captured)
    (h5 : st.chargeForIntent intent.id = some charge) :
    cancel_payment st cpid =
      (canceledCapturedState st cp intent charge,
        .ok { cp with deleted_at := some st.now }) := by
  unfold cancel_payment
  rw [h1]
  simp [h2, h3, h4, h5]

/-- C3: `cancel_payment` is idempotent — canceling an already-canceled payment
is a no-op returning the current state with no further gateway cancel or refund
call (the state, including the gateway log, is unchanged) — and a single cancel
of a payment whose funds were captured issues exactly one gateway refund call,
for the full captured, non-refunded amount, leaving the charge fully
refunded. -/
theorem cancel_payment_idempotent_and_full_refund (st : EngineState) (cpid : Nat) :
    (∀ cp, st.cartPaymentById cpid = some cp → cp.deleted_at.isSome = true →
      cancel_payment st cpid = (st, .ok cp)) ∧
    (∀ cp intent charge,
      st.cartPaymentById cpid = some cp → cp.deleted_at = none →
      st.intentForCartPayment cpid = some intent → intent.status = .captured →
      st.chargeForIntent intent.id = some charge →
      cancel_payment st cpid =
        (canceledCapturedState st cp intent charge,
          .ok { cp with deleted_at := some st.now }) ∧
      (canceledCapturedState st cp intent charge).gateway.refund =
        st.gateway.refund + 1 ∧
      (canceledCapturedState st cp intent charge).gateway.cancel = st.gateway.cancel ∧
      (cancelRefund st intent charge).amount =
        charge.amount - charge.amount_refunded ∧
      (canceledCapturedState st cp intent charge).charges.head? =
        some { charge with amount_refunded := charge.amount }) := by
  constructor
  · exact fun cp h1 h2 => cancel_payment_noop st cpid cp h1 h2
  · intro cp intent charge h1 h2 h3 h4 h5
    exact ⟨cancel_payment_captured st cpid cp intent charge h1 h2 h3 h4 h5,
      rfl, rfl, rfl, rfl⟩

/-- C3 witness: canceling the already-canceled example payment is a no-op on
the exact state, and canceling the captured example payment produces the
refunded snapshots. -/
theorem cancel_payment_idempotent_and_full_refund_witness :
    cancel_payment exampleCanceledState 1 =
      (exampleCanceledState, .ok exampleCanceledPayment) ∧
    cancel_payment exampleCapturedState 1 =
      (canceledCapturedState exampleCapturedState exampleCapturedPayment
          exampleCapturedIntent exampleCapturedCharge,
        .ok { exampleCapturedPayment with deleted_at := some exampleCapturedState.now }) :=
  ⟨(cancel_payment_idempotent_and_full_refund exampleCanceledState 1).1
      exampleCanceledPayment (by decide) (by decide),
   ((cancel_payment_idempotent_and_full_refund exampleCapturedState 1).2
      exampleCapturedPayment exampleCapturedIntent exampleCapturedCharge
      (by decide) (by decide) (by decide) (by decide) (by decide)).1⟩

lemma update_payment_invalid_state (st : EngineState) (k : String) (cpid : Nat)
    (amount : Int) (d : Option String) (cp : CartPayment)
    (hle : ¬ amount ≤ 0) (h1 : st.cartPaymentById cpid = some cp)
    (h2 : cp.deleted_at.isSome = true) :
    update_payment st k cpid amount d = (st, .error .InvalidState) := by
  unfold update_payment
  rw [if_neg hle, h1]
  simp [h2]

lemma update_payment_ok_cases (st : EngineState) (k : String) (cpid : Nat)
    (amount : Int) (d : Option String) (cp : CartPayment) (intent : PaymentIntent)
    (hle : ¬ amount ≤ 0) (h1 : st.cartPaymentById cpid = some cp)
    (h2 : cp.deleted_at = none) (h3 : st.intentForCartPayment cpid = some intent) :
    update_payment st k cpid amount d =
      (adjustedState st k cp intent amount d,
        .ok { cp with amount := amount, client_description := d }) := by
  unfold update_payment
  rw [if_neg hle, h1]
  simp [h2, h3]

/-- C7: `update_payment` fails with non-retryable `InvalidRequest` exactly when
the requested amount is ≤ 0, fails with non-retryable `InvalidState` when the
target payment is canceled (soft-deleted), every failure leaves the state — and
hence the gateway call log — untouched, and otherwise the adjustment
proceeds. -/
theorem update_payment_error_contract (st : EngineState) (k : String) (cpid : Nat)
    (amount : Int) (d : Option String) :
    ((update_payment st k cpid amount d).2 = .error .InvalidRequest ↔ amount ≤ 0) ∧
    ErrorKind.InvalidRequest.retryable = false ∧
    ErrorKind.InvalidState.retryable = false ∧
    (∀ cp, 0 < amount → st.cartPaymentById cpid = some cp →
      cp.deleted_at.isSome = true →
      update_payment st k cpid amount d = (st, .error .InvalidState)) ∧
    (∀ e, (update_payment st k cpid amount d).2 = .error e →
      (update_payment st k cpid amount d).1 = st) ∧
    (∀ cp intent, 0 < amount → st.cartPaymentById cpid = some cp →
      cp.deleted_at = none → st.intentForCartPayment cpid = some intent →
      update_payment st k cpid amount d =
        (adjustedState st k cp intent amount d,
          .ok { cp with amount := amount, client_description := d })) := by
  by_cases hle : amount ≤ 0
  · have hupd : update_payment st k cpid amount d = (st, .error .InvalidRequest) := by
      unfold update_payment
      rw [if_pos hle]
    refine ⟨?_, rfl, rfl, ?_, ?_, ?_⟩
    · rw [hupd]
      simp [hle]
    · intro cp hpos _ _
      exact absurd hpos (by omega)
    · intro e _
      rw [hupd]
    · intro cp intent hpos _ _ _
      exact absurd hpos (by omega)
  · rcases h1 : st.cartPaymentById cpid with _ | cp
    · have hupd : update_payment st k cpid amount d = (st, .error .NotFound) := by
        unfold update_payment
        rw [if_neg hle, h1]
      refine ⟨?_, rfl, rfl, ?_, ?_, ?_⟩
      · rw [hupd]
        simp [hle]
      · intro cp _ hcp _
        exact Option.noConfusion hcp
      · intro e _
        rw [hupd]
      · intro cp intent _ hcp _ _
        exact Option.noConfusion hcp
    · by_cases hdel : cp.deleted_at.isSome = true
      · have hupd := update_payment_invalid_state st k cpid amount d cp hle h1 hdel
        refine ⟨?_, rfl, rfl, ?_, ?_, ?_⟩
        · rw [hupd]
          simp [hle]
        · intro _ _ _ _
          exact hupd
        · intro e _
          rw [hupd]
        · intro cp0 intent _ hcp0 hdel0 _
          injection hcp0 with hcp0
          subst hcp0
          rw [hdel0] at hdel
          simp at hdel
      · rcases h3 : st.intentForCartPayment cpid with _ | intent
        · have hupd : update_payment st k cpid amount d = (st, .error .NotFound) := by
            unfold update_payment
            rw [if_neg hle, h1]
            simp [hdel, h3]
          refine ⟨?_, rfl, rfl, ?_, ?_, ?_⟩
          · rw [hupd]
            simp [hle]
          · intro cp0 _ hcp0 hdel0
            injection hcp0 with hcp0
            subst hcp0
            exact absurd hdel0 hdel
          · intro e _
            rw [hupd]
          · intro cp0 intent0 _ _ _ hint0
            exact Option.noConfusion hint0
        · have h2 : cp.deleted_at = none := Option.not_isSome_iff_eq_none.mp hdel
          have hupd := update_payment_ok_cases st k cpid amount d cp intent hle h1 h2 h3
          refine ⟨?_, rfl, rfl, ?_, ?_, ?_⟩
          · rw [hupd]
            simp [hle]
          · intro cp0 _ hcp0 hdel0
            injection hcp0 with hcp0
            subst hcp0
            exact absurd hdel0 hdel
          · intro e he
            rw [hupd] at he
            simp at he
          · intro cp0 intent0 _ hcp0 _ hint0
            injection hcp0 with hcp0
            subst hcp0
            injection hint0 with hint0
            subst hint0
            exact hupd

/-- C7 witness: adjusting the canceled example payment fails with
`InvalidState` leaving the state untouched, and adjusting the live example
payment to 700 cents proceeds. -/
theorem update_payment_error_contract_witness :
    update_payment exampleCanceledState "key-9" 1 700 none =
      (exampleCanceledState, .error .InvalidState) ∧
    update_payment exampleCreatedState "key-3" 1 700 none =
      (adjustedState exampleCreatedState "key-3" examplePayment exampleIntent 700 none,
        .ok { examplePayment with amount := 700, client_description := none }) :=
  ⟨(update_payment_error_contract exampleCanceledState "key-9" 1 700 none).2.2.2.1
      exampleCanceledPayment (by decide) (by decide) (by decide),
   (update_payment_error_contract exampleCreatedState "key-3" 1 700 none).2.2.2.2.2
      examplePayment exampleIntent (by decide) (by decide) (by decide) (by decide)⟩

lemma update_payment_ok_shape (st : EngineState) (k : String) (cpid : Nat)
    (amount : Int) (d : Option String) (cp' : CartPayment)
    (hok : (update_payment st k cpid amount d).2 = .ok cp') :
    ∃ cp intent, st.cartPaymentById cpid = some cp ∧ cp.deleted_at = none ∧
      st.intentForCartPayment cpid = some intent ∧ ¬ amount ≤ 0 ∧
      update_payment st k cpid amount d =
        (adjustedState st k cp intent amount d,
          .ok { cp with amount := amount, client_description := d }) ∧
      cp' = { cp with amount := amount, client_description := d } := by
  by_cases hle : amount ≤ 0
  · have hupd : update_payment st k cpid amount d = (st, .error .InvalidRequest) := by
      unfold update_payment
      rw [if_pos hle]
    rw [hupd] at hok
    exact absurd hok (by simp)
  rcases h1 : st.cartPaymentById cpid with _ | cp
  · have hupd : update_payment st k cpid amount d = (st, .error .NotFound) := by
      unfold update_payment
      rw [if_neg hle, h1]
    rw [hupd] at hok
    exact absurd hok (by simp)
  by_cases hdel : cp.deleted_at.isSome = true
  · rw [update_payment_invalid_state st k cpid amount d cp hle h1 hdel] at hok
    exact absurd hok (by simp)
  rcases h3 : st.intentForCartPayment cpid with _ | intent
  · have hupd : update_payment st k cpid amount d = (st, .error .NotFound) := by
      unfold update_payment
      rw [if_neg hle, h1]
      simp [hdel, h3]
    rw [hupd] at hok
    exact absurd hok (by simp)
  have h2 : cp.deleted_at = none := Option.not_isSome_iff_eq_none.mp hdel
  have hupd := update_payment_ok_cases st k cpid amount d cp intent hle h1 h2 h3
  rw [hupd] at hok
  simp only [Except.ok.injEq] at hok
  exact ⟨cp, intent, rfl, h2, rfl, hle, hupd, hok.symm⟩

lemma update_payment_preserves_HistoryInv (st : EngineState) (k : String) (cpid : Nat)
    (amount : Int) (d : Option String) (h : HistoryInv st cpid) :
    HistoryInv (update_payment st k cpid amount d).1 cpid := by
  by_cases hle : amount ≤ 0
  · have hupd : update_payment st k cpid amount d = (st, .error .InvalidRequest) := by
      unfold update_payment
      rw [if_pos hle]
    rw [hupd]
    exact h
  rcases h1 : st.cartPaymentById cpid with _ | cp
  · have hupd : update_payment st k cpid amount d = (st, .error .NotFound) := by
      unfold update_payment
      rw [if_neg hle, h1]
    rw [hupd]
    exact h
  by_cases hdel : cp.deleted_at.isSome = true
  · rw [update_payment_invalid_state st k cpid amount d cp hle h1 hdel]
    exact h
  rcases h3 : st.intentForCartPayment cpid with _ | intent
  · have hupd : update_payment st k cpid amount d = (st, .error .NotFound) := by
      unfold update_payment
      rw [if_neg hle, h1]
      simp [hdel, h3]
    rw [hupd]
    exact h
  have h2 : cp.deleted_at = none := Option.not_isSome_iff_eq_none.mp hdel
  rw [update_payment_ok_cases st k cpid amount d cp intent hle h1 h2 h3]
  have hid : cp.id = cpid := by
    have hp := List.find?_some h1
    simpa using hp
  obtain ⟨hdelta, hchain, hlink⟩ := h
  refine ⟨?_, ?_, ?_⟩
  · intro e he
    rcases List.mem_cons.mp he with rfl | he
    · simp [adjustmentEntry]
    · exact hdelta e he
  · refine List.chain'_cons'.mpr ⟨?_, hchain⟩
    intro b hb
    have hb' : st.history.head? = some b := Option.mem_def.mp hb
    unfold headLinkedB at hlink
    rw [h1, hb'] at hlink
    simp only [decide_eq_true_eq] at hlink
    simpa [adjustmentEntry] using hlink.symm
  · have hfind : (adjustedState st k cp intent amount d).cartPaymentById cpid =
        some { cp with amount := amount, client_description := d } := by
      show List.find? _
        ({ cp with amount := amount, client_description := d } :: st.cart_payments) = _
      exact List.find?_cons_of_pos _ (by simp [hid])
    unfold headLinkedB
    rw [hfind]
    simp [adjustedState, adjustmentEntry]

lemma run_adjustments_preserves_HistoryInv (st : EngineState) (cpid : Nat)
    (reqs : List (String × Int)) (h : HistoryInv st cpid) :
    HistoryInv (run_adjustments st cpid reqs) cpid := by
  induction reqs generalizing st with
  | nil => simpa [run_adjustments] using h
  | cons r t ih =>
    have hstep := update_payment_preserves_HistoryInv st r.1 cpid r.2 none h
    simpa [run_adjustments] using ih _ hstep

/-- C4: every accepted amount adjustment writes a
`PaymentIntentAdjustmentHistory` record satisfying amount_delta = amount −
amount_original; across any sequence of adjustments the history invariant is
preserved — consecutive entries are chained (each entry's amount_original
equals the previous entry's amount) and the newest entry agrees with the
payment's current amount; and the repository's fixture record satisfies the
delta law. -/
theorem adjustment_history_amount_invariant (cpid : Nat) :
    (∀ (st : EngineState) (k : String) (amt : Int) (d : Option String)
      (cp' : CartPayment), (update_payment st k cpid amt d).2 = .ok cp' →
      ∃ entry, (update_payment st k cpid amt d).1.history = entry :: st.history ∧
        entry.amount = amt ∧
        entry.amount_delta = entry.amount - entry.amount_original) ∧
    (∀ (st : EngineState) (reqs : List (String × Int)), HistoryInv st cpid →
      HistoryInv (run_adjustments st cpid reqs) cpid) ∧
    (∀ (pid : Nat) (key : String),
      (generate_payment_intent_adjustment_history pid key).amount_delta =
        (generate_payment_intent_adjustment_history pid key).amount -
          (generate_payment_intent_adjustment_history pid key).amount_original) := by
  refine ⟨?_, fun st reqs h => run_adjustments_preserves_HistoryInv st cpid reqs h,
    fun pid key => rfl⟩
  intro st k amt d cp' hok
  obtain ⟨cp, intent, h1, h2, h3, hle, hupd, rfl⟩ :=
    update_payment_ok_shape st k cpid amt d cp' hok
  refine ⟨adjustmentEntry st k cp intent amt, ?_, rfl, rfl⟩
  rw [hupd]
  rfl

/-- C4 witness: two concrete adjustments (to 700 then 300 cents) of the example
payment preserve the history invariant. -/
theorem adjustment_history_amount_invariant_witness :
    HistoryInv (run_adjustments exampleCreatedState 1 [("key-a", 700), ("key-b", 300)]) 1 :=
  (adjustment_history_amount_invariant 1).2.1 exampleCreatedState
    [("key-a", 700), ("key-b", 300)] (by decide)

lemma issue_refund_ok_shape (ch : PaymentCharge) (amt : Int)
    (res : PaymentCharge × Refund) (hok : issue_refund ch amt = .ok res) :
    0 < amt ∧ amt ≤ ch.amount - ch.amount_refunded ∧
    res.1 = { ch with amount_refunded := ch.amount_refunded + amt } ∧
    res.2.amount = amt := by
  unfold issue_refund at hok
  by_cases h1 : amt ≤ 0
  · rw [if_pos h1] at hok
    exact absurd hok (by simp)
  rw [if_neg h1] at hok
  by_cases h2 : ch.amount - ch.amount_refunded < amt
  · rw [if_pos h2] at hok
    exact absurd hok (by simp)
  rw [if_neg h2] at hok
  injection hok with hok
  subst hok
  exact ⟨by omega, by omega, rfl, rfl⟩

lemma stepCharge_facts (ch : PaymentCharge) (a : Int) :
    ch.amount_refunded ≤ (stepCharge ch a).amount_refunded ∧
    (stepCharge ch a).amount = ch.amount ∧
    (ch.amount_refunded ≤ ch.amount → (stepCharge ch a).amount_refunded ≤ ch.amount) := by
  unfold stepCharge
  rcases hr : issue_refund ch a with e | res
  · exact ⟨le_refl _, rfl, fun h => h⟩
  · obtain ⟨hpos, hle, hres, _⟩ := issue_refund_ok_shape ch a res hr
    refine ⟨?_, ?_, fun hb => ?_⟩ <;> simp [hres] <;> omega

lemma apply_refunds_facts (amounts : List Int) :
    ∀ ch : PaymentCharge,
      ch.amount_refunded ≤ (apply_refunds ch amounts).amount_refunded ∧
      (apply_refunds ch amounts).amount = ch.amount ∧
      (ch.amount_refunded ≤ ch.amount →
        (apply_refunds ch amounts).amount_refunded ≤ ch.amount) := by
  induction amounts with
  | nil => exact fun ch => ⟨le_refl _, rfl, fun h => h⟩
  | cons a t ih =>
    intro ch
    have hfold : apply_refunds ch (a :: t) = apply_refunds (stepCharge ch a) t := rfl
    obtain ⟨s1, s2, s3⟩ := stepCharge_facts ch a
    obtain ⟨i1, i2, i3⟩ := ih (stepCharge ch a)
    rw [hfold]
    refine ⟨le_trans s1 i1, by rw [i2, s2], fun hb => ?_⟩
    have hstep : (stepCharge ch a).amount_refunded ≤ (stepCharge ch a).amount := by
      rw [s2]
      exact s3 hb
    have hfinal := i3 hstep
    rw [s2] at hfinal
    exact hfinal

/-- C5: a charge's amount_refunded never decreases across any sequence of
refund attempts and never exceeds the charge's amount; each accepted refund's
amount does not exceed the refundable remainder of its parent charge; the
charge's amount itself never changes. -/
theorem charge_refund_bounds (ch : PaymentCharge) (amounts : List Int) :
    (∀ amt res, issue_refund ch amt = .ok res →
      res.2.amount = amt ∧ amt ≤ ch.amount - ch.amount_refunded ∧
      res.1.amount_refunded = ch.amount_refunded + amt) ∧
    ch.amount_refunded ≤ (apply_refunds ch amounts).amount_refunded ∧
    (apply_refunds ch amounts).amount = ch.amount ∧
    (ch.amount_refunded ≤ ch.amount →
      (apply_refunds ch amounts).amount_refunded ≤ ch.amount) := by
  obtain ⟨m1, m2, m3⟩ := apply_refunds_facts amounts ch
  refine ⟨?_, m1, m2, m3⟩
  intro amt res hok
  obtain ⟨hpos, hle, hres, hamt⟩ := issue_refund_ok_shape ch amt res hok
  exact ⟨hamt, hle, by rw [hres]⟩

/-- C5 witness: the fixture charge (700 cents captured, 0 refunded) under
refund attempts 200, 300 and 900 — the last is rejected as exceeding the
remainder, and the refunded total stays within the captured amount. -/
theorem charge_refund_bounds_witness :
    (generate_payment_charge 2 ChargeStatus.succeeded 700 0).amount_refunded ≤
      (apply_refunds (generate_payment_charge 2 ChargeStatus.succeeded 700 0)
        [200, 300, 900]).amount_refunded ∧
    (apply_refunds (generate_payment_charge 2 ChargeStatus.succeeded 700 0)
      [200, 300, 900]).amount_refunded ≤
      (generate_payment_charge 2 ChargeStatus.succeeded 700 0).amount :=
  ⟨(charge_refund_bounds (generate_payment_charge 2 ChargeStatus.succeeded 700 0)
      [200, 300, 900]).2.1,
   (charge_refund_bounds (generate_payment_charge 2 ChargeStatus.succeeded 700 0)
      [200, 300, 900]).2.2.2 (by decide)⟩

/-- C1 counterexample: the claim's boundary conjunct is false on the source —
at a true boolean the upsert API boundary falls through to the HTTP 200
response, not the HTTP 201 Created response, and it selects 201 exactly at a
false boolean (`app/payin/api/cart_payment/v1/api.py`, lines 262-267, where the
flag is bound as `updated`). -/
theorem upsert_boundary_flag_polarity_cex :
    upsert_api_status true = 200 ∧ upsert_api_status true ≠ 201 ∧
    upsert_api_status false = 201 := by decide

/-- C1 (amended): `upsert_cart_payment` with a fresh correlation key creates
the payment and returns it with the boolean `false`, on which the boundary
selects the 201 Created response; with an existing correlation key it updates
that payment to the request's amount and returns it with the boolean `true`,
on which the boundary selects the 200 OK response — the boolean is `true`
exactly when an existing payment was updated rather than created. -/
theorem upsert_cart_payment_updated_flag (st : EngineState)
    (req : CreateCartPaymentRequest) (k : String) :
    (∀ st' cp, st.cartPaymentByCorrelation req.correlation_ids = none →
      create_cart_payment st req k = (st', .ok cp) →
      upsert_cart_payment st req k = (st', .ok (cp, false)) ∧
      upsert_api_status false = 201) ∧
    (∀ cp st' cp', st.cartPaymentByCorrelation req.correlation_ids = some cp →
      update_payment st k cp.id req.amount req.client_description = (st', .ok cp') →
      upsert_cart_payment st req k = (st', .ok (cp', true)) ∧
      cp'.amount = req.amount ∧
      upsert_api_status true = 200) := by
  constructor
  · intro st' cp hnone hcreate
    refine ⟨?_, rfl⟩
    unfold upsert_cart_payment
    rw [hnone]
    dsimp only
    rw [hcreate]
    rfl
  · intro cp st' cp' hsome hupd
    have hok : (update_payment st k cp.id req.amount req.client_description).2 =
        .ok cp' := by
      rw [hupd]
    obtain ⟨cp0, intent, _, _, _, _, _, hcp'⟩ :=
      update_payment_ok_shape st k cp.id req.amount req.client_description cp' hok
    refine ⟨?_, by rw [hcp'], rfl⟩
    unfold upsert_cart_payment
    rw [hsome]
    dsimp only
    rw [hupd]
    rfl

/-- C1 witness: upserting the example request on the empty store creates and
yields the `false` flag (201 response); upserting the 700-cent request on the
store that already holds the payment updates it and yields the `true` flag
(200 response). -/
theorem upsert_cart_payment_updated_flag_witness :
    (upsert_cart_payment emptyEngineState exampleRequest "key-1" =
      (createdState emptyEngineState exampleRequest "key-1",
        .ok (createdPayment emptyEngineState exampleRequest, false)) ∧
      upsert_api_status false = 201) ∧
    (upsert_cart_payment exampleCreatedState exampleUpdatedRequest "key-3" =
      (exampleAdjustedState, .ok (exampleAdjustedPayment, true)) ∧
      exampleAdjustedPayment.amount = exampleUpdatedRequest.amount ∧
      upsert_api_status true = 200) :=
  ⟨(upsert_cart_payment_updated_flag emptyEngineState exampleRequest "key-1").1
      (createdState emptyEngineState exampleRequest "key-1")
      (createdPayment emptyEngineState exampleRequest) (by decide) (by decide),
   (upsert_cart_payment_updated_flag exampleCreatedState exampleUpdatedRequest "key-3").2
      examplePayment exampleAdjustedState exampleAdjustedPayment
      (by decide) (by decide)⟩

end PaymentService

namespace Purchasecard

/-- C10: for every `PaymentError` raised by the transaction-event processor,
the re-raised `PaymentException` has status 404 exactly for the two not-found
codes, 400 exactly for the invalid-input code, and 500 in every other case,
with the error code, message and retryable flag passed through unchanged. -/
theorem transaction_event_status_mapping (e : PaymentError) :
    ((get_latest_marqeta_transaction_event_on_error e).http_status_code = 404 ↔
      (e.error_code = TxnErrorCode.marqeta_transaction_not_found ∨
        e.error_code = TxnErrorCode.marqeta_transaction_event_not_found)) ∧
    ((get_latest_marqeta_transaction_event_on_error e).http_status_code = 400 ↔
      e.error_code = TxnErrorCode.input_param_invalid) ∧
    ((e.error_code ≠ TxnErrorCode.marqeta_transaction_not_found ∧
      e.error_code ≠ TxnErrorCode.marqeta_transaction_event_not_found ∧
      e.error_code ≠ TxnErrorCode.input_param_invalid) →
      (get_latest_marqeta_transaction_event_on_error e).http_status_code = 500) ∧
    (get_latest_marqeta_transaction_event_on_error e).error_code = e.error_code ∧
    (get_latest_marqeta_transaction_event_on_error e).error_message = e.error_message ∧
    (get_latest_marqeta_transaction_event_on_error e).retryable = e.retryable := by
  obtain ⟨code, msg, r⟩ := e
  cases code <;> simp [get_latest_marqeta_transaction_event_on_error]

/-- C10 witness: an unrecognized error code is re-raised with status 500. -/
theorem transaction_event_status_mapping_witness :
    (get_latest_marqeta_transaction_event_on_error
      { error_code := .other "X", error_message := "m", retryable := true
        : PaymentError }).http_status_code = 500 :=
  (transaction_event_status_mapping
    { error_code := .other "X", error_message := "m", retryable := true }).2.2.1
    (by refine ⟨by decide, by decide, by decide⟩)

end Purchasecard
